import Mathlib

/-!
Shallow embedding of `src/lib/dpif-netdev-offload.c` (the hardware
flow-offload engine of the lrouter/ovs-dpdk dataplane) together with
proofs about the behaviour of its operations.

Conventions of the embedding:

* 128-bit ufids are two natural-number halves (`hi`, `lo`), each meant
  to be below `2 ^ 64`, mirroring `ovs_u128`.
* The NIC driver is modelled by an acceptance oracle `accept` deciding
  which ufids `netdev_flow_put` succeeds for, a set `prog` of currently
  programmed ufids, and a trace `calls` of every driver call issued.
* Atomic stores into a flow's `status` word are recorded as
  `(flow handle, value)` pairs in a `stores` list.
* Hash-map (`hmap`) iteration is modelled by list traversal; lookups
  compare `mega_ufid` keys exactly as the C code does, and flow-handle
  (pointer) identity is modelled by a numeric `handle` field.
-/

/-- Modelled from the spec: the `enum offload_status` values and op codes are
declared in `dpif-netdev-private.h`, which is not part of `src/`.  Per spec §3
the status word is a small enum plus an `IN_PROGRESS` bit that producers OR
into the word, so the values are distinct single bits with `NONE = 0`. -/
def OFFLOAD_NONE : Nat := 0

/-- Modelled from the spec: the producer-set busy bit of the status word. -/
def OFFLOAD_IN_PROGRESS : Nat := 1

/-- Modelled from the spec: match-only offload status. -/
def OFFLOAD_MASK : Nat := 2

/-- Modelled from the spec: match+actions offload status. -/
def OFFLOAD_FULL : Nat := 4

/-- Modelled from the spec: failed offload status. -/
def OFFLOAD_FAILED : Nat := 8

/-- Modelled from the spec: op code for queued ADD requests. -/
def DP_NETDEV_FLOW_OFFLOAD_OP_ADD : Nat := 0

/-- Modelled from the spec: op code for queued MOD requests. -/
def DP_NETDEV_FLOW_OFFLOAD_OP_MOD : Nat := 1

/-- Modelled from the spec: op code for queued DEL requests. -/
def DP_NETDEV_FLOW_OFFLOAD_OP_DEL : Nat := 2

/-- Modelled from the spec: `flow_offload_in_progress` tests the
`IN_PROGRESS` bit of the atomic status word. -/
def flow_offload_in_progress (status : Nat) : Bool :=
  status &&& OFFLOAD_IN_PROGRESS ≠ 0

/-- Modelled from the spec: `offload_status_offloaded` holds for the two
offloaded states `FULL` and `MASK` (spec §8: "∀ flow F with
`status ∈ {FULL, MASK}`"). -/
def offload_status_offloaded (status : Nat) : Bool :=
  status = OFFLOAD_FULL || status = OFFLOAD_MASK

/-- `ovs_u128`: a 128-bit ufid as two 64-bit halves. -/
structure Ovs128 where
  hi : Nat
  lo : Nat
deriving DecidableEq

/-- The value of a 128-bit ufid, high half above the low half. -/
def u128_toNat (u : Ovs128) : Nat := u.hi * 2 ^ 64 + u.lo

/-- `tnl_pop_flow_get_ufid`: the composed ufid of an (ingress, tnl-pop)
pair XORs the two flows' `mega_ufid` halves. -/
def tnl_pop_flow_get_ufid (inflowUfid tnlflowUfid : Ovs128) : Ovs128 :=
  { hi := inflowUfid.hi ^^^ tnlflowUfid.hi
    lo := inflowUfid.lo ^^^ tnlflowUfid.lo }

/-- One call into the NIC driver, as recorded in the driver trace.
`put` carries the ufid, the byte count of the action list handed over,
and whether `info->mark_set` was 1 for the call. -/
inductive DriverCall where
  | put (ufid : Ovs128) (actLen : Nat) (markSet : Bool)
  | del (ufid : Ovs128)
deriving DecidableEq

/-- Driver-side state: the acceptance oracle, the set of programmed
entries (by ufid) and the trace of calls issued so far. -/
structure Driver where
  accept : Ovs128 → Bool
  prog : List Ovs128
  calls : List DriverCall

/-- Installing an entry in the programmed set (a second put with the same
ufid is a driver-side modify and leaves the set unchanged). -/
def progPut (prog : List Ovs128) (u : Ovs128) : List Ovs128 :=
  if u ∈ prog then prog else prog ++ [u]

/-- Removing an entry from the programmed set. -/
def progDel (prog : List Ovs128) (u : Ovs128) : List Ovs128 :=
  prog.filter (fun v => v ≠ u)

/-- `netdev_flow_put`: issue a put to the driver; on acceptance the entry
becomes programmed.  Returns the driver state and whether the put
succeeded (`ret == 0` in C). -/
def netdev_flow_put (d : Driver) (u : Ovs128) (actLen : Nat) (markSet : Bool) :
    Driver × Bool :=
  if d.accept u then
    ({ d with prog := progPut d.prog u
              calls := d.calls ++ [DriverCall.put u actLen markSet] }, true)
  else
    ({ d with calls := d.calls ++ [DriverCall.put u actLen markSet] }, false)

/-- `netdev_flow_del`: issue a delete to the driver; the entry leaves the
programmed set (the C callers ignore the return value). -/
def netdev_flow_del (d : Driver) (u : Ovs128) : Driver :=
  { d with prog := progDel d.prog u
           calls := d.calls ++ [DriverCall.del u] }

/-- The part of a `dp_netdev_flow` the composition engine reads: the
pointer identity and the `mega_ufid`. -/
structure FlowH where
  handle : Nat
  ufid : Ovs128
deriving DecidableEq

/-- `struct ingress_flow` (C4a): a flow whose actions pop a tunnel.
`status` is the transient per-operation status field. -/
structure IngressFlow where
  handle : Nat
  ufid : Ovs128
  action_flags : Nat
  status : Nat
deriving DecidableEq

/-- `struct tnl_pop_flow` (C4b): a flow matched on the tunnel vport.
`ref` is the composed-entry reference count. -/
structure TnlPopFlow where
  handle : Nat
  ufid : Ovs128
  action_flags : Nat
  ref : Int
  status : Nat
deriving DecidableEq

/-- `struct tnl_offload_aux` (C4): the two composition tables of one
tunnel vport. -/
structure TnlAux where
  ingress_flows : List IngressFlow
  tnl_pop_flows : List TnlPopFlow
deriving DecidableEq

/-- `ingress_flow_find`: hmap lookup by `mega_ufid`. -/
def ingress_flow_find (flow : FlowH) (aux : TnlAux) : Option IngressFlow :=
  aux.ingress_flows.find? (fun i => i.ufid = flow.ufid)

/-- `tnlflow_find`: hmap lookup by `mega_ufid`. -/
def tnlflow_find (flow : FlowH) (aux : TnlAux) : Option TnlPopFlow :=
  aux.tnl_pop_flows.find? (fun t => t.ufid = flow.ufid)

/-- `ingress_flow_new` (`xzalloc` zeroes the transient status). -/
def ingress_flow_new (flow : FlowH) (action_flags : Nat) : IngressFlow :=
  { handle := flow.handle, ufid := flow.ufid
    action_flags := action_flags, status := OFFLOAD_NONE }

/-- `tnlflow_new` (`xzalloc` zeroes `ref` and the transient status). -/
def tnlflow_new (flow : FlowH) (action_flags : Nat) : TnlPopFlow :=
  { handle := flow.handle, ufid := flow.ufid
    action_flags := action_flags, ref := 0, status := OFFLOAD_NONE }

/-- `ingress_flow_validate`: program the match-only form (zero actions)
of the ingress flow with `mark_set = 1`; on success delete it again and
report valid, on driver refusal report invalid without the delete. -/
def ingress_flow_validate (d : Driver) (inflow : IngressFlow) : Driver × Bool :=
  let r := netdev_flow_put d inflow.ufid 0 true
  if r.2 then (netdev_flow_del r.1 inflow.ufid, true) else (r.1, false)

/-- Result of a composition-engine pass: the handled-over `hint`
(`0` ok, `-1` anomaly), the updated tables, the driver state, and the
atomic flow-status stores performed while holding the lock. -/
structure ComposeResult where
  hint : Int
  aux : TnlAux
  driver : Driver
  stores : List (Nat × Nat)

/-- The put loop of `try_offload_tnl_pop` (ingress ADD): for every
tnl-pop flow, program the composed entry; success bumps `ref` and marks
the entry `FULL`, failure marks it `FAILED` and requests a rollback.
Every entry is attempted (no break).  `actLenOf` gives the action-list
size `dp_netdev_flow_get_actions(tnlflow->flow)->size`. -/
def try_offload_tnl_pop_loop (inflow : IngressFlow) (actLenOf : Nat → Nat) :
    List TnlPopFlow → Driver → List TnlPopFlow × Driver × Bool
  | [], d => ([], d, false)
  | t :: ts, d =>
    let u := tnl_pop_flow_get_ufid inflow.ufid t.ufid
    let r := netdev_flow_put d u (actLenOf t.handle) false
    if r.2 then
      let rest := try_offload_tnl_pop_loop inflow actLenOf ts r.1
      ({ t with status := OFFLOAD_FULL, ref := t.ref + 1 } :: rest.1,
       rest.2.1, rest.2.2)
    else
      let rest := try_offload_tnl_pop_loop inflow actLenOf ts r.1
      ({ t with status := OFFLOAD_FAILED } :: rest.1, rest.2.1, true)

/-- The rollback walk of `try_offload_tnl_pop`: a `FAILED` entry with
`ref == 0` has its flow status stored `FAILED` and is removed and freed;
a `FAILED` entry with nonzero `ref` is kept and the hint becomes `-1`;
every other entry (marked `FULL` by the put loop) has its composed entry
deleted from the driver — its `ref` is left as is. -/
def try_offload_tnl_pop_rollback (inflow : IngressFlow) :
    List TnlPopFlow → Driver →
    List TnlPopFlow × Driver × List (Nat × Nat) × Int
  | [], d => ([], d, [], 0)
  | t :: ts, d =>
    if t.status = OFFLOAD_FAILED then
      if t.ref = 0 then
        let rest := try_offload_tnl_pop_rollback inflow ts d
        (rest.1, rest.2.1, (t.handle, OFFLOAD_FAILED) :: rest.2.2.1, rest.2.2.2)
      else
        let rest := try_offload_tnl_pop_rollback inflow ts d
        (t :: rest.1, rest.2.1, rest.2.2.1, -1)
    else
      let u := tnl_pop_flow_get_ufid inflow.ufid t.ufid
      let rest := try_offload_tnl_pop_rollback inflow ts (netdev_flow_del d u)
      (t :: rest.1, rest.2.1, rest.2.2.1, rest.2.2.2)

/-- `try_offload_tnl_pop`: under the aux write lock, reset every tnl-pop
entry's transient status, program the composed entry for each of them,
and on any failure run the rollback walk. -/
def try_offload_tnl_pop (inflow : IngressFlow) (actLenOf : Nat → Nat)
    (aux : TnlAux) (d : Driver) : ComposeResult :=
  let ts0 := aux.tnl_pop_flows.map (fun t => { t with status := OFFLOAD_NONE })
  let put := try_offload_tnl_pop_loop inflow actLenOf ts0 d
  if put.2.2 then
    let rb := try_offload_tnl_pop_rollback inflow put.1 put.2.1
    { hint := rb.2.2.2
      aux := { aux with tnl_pop_flows := rb.1 }
      driver := rb.2.1
      stores := rb.2.2.1 }
  else
    { hint := 0
      aux := { aux with tnl_pop_flows := put.1 }
      driver := put.2.1
      stores := [] }

/-- The put loop of `dp_netdev_try_offload_tnl_pop` (tnl-pop ADD/MOD):
program the composed entry for every ingress flow; success bumps the
tnl-pop flow's `ref` and marks the ingress entry `FULL`; the loop breaks
at the first failure. -/
def tnl_pop_add_loop (tnlflow : TnlPopFlow) (actLen : Nat) :
    List IngressFlow → Driver →
    List IngressFlow × Driver × TnlPopFlow × Bool
  | [], d => ([], d, tnlflow, false)
  | i :: is, d =>
    let u := tnl_pop_flow_get_ufid i.ufid tnlflow.ufid
    let r := netdev_flow_put d u actLen false
    if r.2 then
      let rest := tnl_pop_add_loop { tnlflow with ref := tnlflow.ref + 1 }
                    actLen is r.1
      ({ i with status := OFFLOAD_FULL } :: rest.1,
       rest.2.1, rest.2.2.1, rest.2.2.2)
    else
      (i :: is, r.1, tnlflow, true)

/-- The rollback walk of `dp_netdev_try_offload_tnl_pop`: every ingress
entry marked `FULL` has its `ref` contribution reverted and its composed
entry deleted from the driver. -/
def tnl_pop_add_rollback (tnlflow : TnlPopFlow) :
    List IngressFlow → Driver → List IngressFlow × Driver × TnlPopFlow
  | [], d => ([], d, tnlflow)
  | i :: is, d =>
    if i.status = OFFLOAD_FULL then
      let u := tnl_pop_flow_get_ufid i.ufid tnlflow.ufid
      let rest := tnl_pop_add_rollback { tnlflow with ref := tnlflow.ref - 1 }
                    is (netdev_flow_del d u)
      (i :: rest.1, rest.2.1, rest.2.2)
    else
      let rest := tnl_pop_add_rollback tnlflow is d
      (i :: rest.1, rest.2.1, rest.2.2)

/-- Result of one engine entry point as seen by the dispatcher. -/
structure EngineResult where
  status : Nat
  aux : TnlAux
  driver : Driver
  stores : List (Nat × Nat)

/-- `dp_netdev_try_offload_tnl_pop`: handle an ADD/MOD whose flow matches
on a tunnel vport that has an aux (`isTnlflow` is `try_tnlflow`'s
verdict).  Find-or-allocate the `tnl_pop_flow`, reset the ingress
transient statuses, program the cross product with break-on-failure, and
either insert the new entry / keep the modified one, or roll back and
drop it.  A ufid hit bound to a different flow handle fails up front. -/
def dp_netdev_try_offload_tnl_pop (isTnlflow : Bool) (flow : FlowH)
    (action_flags actLen : Nat) (aux : TnlAux) (d : Driver) : EngineResult :=
  if !isTnlflow then
    { status := OFFLOAD_NONE, aux := aux, driver := d, stores := [] }
  else
    match tnlflow_find flow aux with
    | some t =>
      if t.handle ≠ flow.handle then
        { status := OFFLOAD_FAILED, aux := aux, driver := d, stores := [] }
      else
        let is0 := aux.ingress_flows.map
          (fun i => { i with status := OFFLOAD_NONE })
        let put := tnl_pop_add_loop t actLen is0 d
        if put.2.2.2 then
          let rb := tnl_pop_add_rollback put.2.2.1 put.1 put.2.1
          { status := OFFLOAD_FAILED
            aux := { ingress_flows := rb.1
                     tnl_pop_flows :=
                       aux.tnl_pop_flows.eraseP (fun t' => t'.ufid = flow.ufid) }
            driver := rb.2.1, stores := [] }
        else
          { status := OFFLOAD_FULL
            aux := { ingress_flows := put.1
                     tnl_pop_flows := aux.tnl_pop_flows.map
                       (fun t' => if t'.ufid = flow.ufid then put.2.2.1 else t') }
            driver := put.2.1, stores := [] }
    | none =>
      let t := tnlflow_new flow action_flags
      let is0 := aux.ingress_flows.map
        (fun i => { i with status := OFFLOAD_NONE })
      let put := tnl_pop_add_loop t actLen is0 d
      if put.2.2.2 then
        let rb := tnl_pop_add_rollback put.2.2.1 put.1 put.2.1
        { status := OFFLOAD_FAILED
          aux := { aux with ingress_flows := rb.1 }
          driver := rb.2.1, stores := [] }
      else
        { status := OFFLOAD_FULL
          aux := { ingress_flows := put.1
                   tnl_pop_flows := aux.tnl_pop_flows ++ [put.2.2.1] }
          driver := put.2.1, stores := [] }

/-- `dp_netdev_try_offload_ingress_add`: the ingress-ADD path.
`hasTnlPop` tells whether the current action list holds a `TUNNEL_POP`
whose target port resolves to a tunnel netdev (lines 749-759 of the C
file); without it the path does not apply.  A ufid already present in
the aux fails immediately; a fresh flow is validated match-only and, if
valid, composed against every tnl-pop entry with rollback on failure. -/
def dp_netdev_try_offload_ingress_add (hasTnlPop : Bool) (flow : FlowH)
    (action_flags : Nat) (actLenOf : Nat → Nat) (aux : TnlAux) (d : Driver) :
    EngineResult :=
  if !hasTnlPop then
    { status := OFFLOAD_NONE, aux := aux, driver := d, stores := [] }
  else
    match ingress_flow_find flow aux with
    | some _ =>
      { status := OFFLOAD_FAILED, aux := aux, driver := d, stores := [] }
    | none =>
      let inflow := ingress_flow_new flow action_flags
      let v := ingress_flow_validate d inflow
      if !v.2 then
        { status := OFFLOAD_FAILED, aux := aux, driver := v.1, stores := [] }
      else
        let c := try_offload_tnl_pop inflow actLenOf aux v.1
        if c.hint ≠ 0 then
          { status := OFFLOAD_FAILED, aux := c.aux, driver := c.driver
            stores := c.stores }
        else
          { status := OFFLOAD_FULL
            aux := { c.aux with
                     ingress_flows := c.aux.ingress_flows ++ [inflow] }
            driver := c.driver, stores := c.stores }

/-- Result of a deletion path: the C return value, the updated tables,
the driver state and the atomic flow-status stores performed. -/
structure DelResult where
  ret : Int
  aux : TnlAux
  driver : Driver
  stores : List (Nat × Nat)

/-- `__ingress_flow_op_flush`: driver-delete the composed entry of the
ingress flow with every tnl-pop flow (return values ignored). -/
def ingress_flow_op_flush (inflow : IngressFlow) (aux : TnlAux)
    (d : Driver) : Driver :=
  aux.tnl_pop_flows.foldl
    (fun d' t => netdev_flow_del d' (tnl_pop_flow_get_ufid inflow.ufid t.ufid)) d

/-- `__tnlflow_op_flush`: driver-delete the composed entry of the tnl-pop
flow with every ingress flow (return values ignored). -/
def tnlflow_op_flush (tnlflow : TnlPopFlow) (aux : TnlAux)
    (d : Driver) : Driver :=
  aux.ingress_flows.foldl
    (fun d' i => netdev_flow_del d' (tnl_pop_flow_get_ufid i.ufid tnlflow.ufid)) d

/-- `del_ingress`: look the flow up in the ingress table; when the entry
exists and is bound to this very flow handle, flush all its composed
entries, store status `NONE` on the flow, and remove and free the entry;
otherwise report `-1` and change nothing. -/
def del_ingress (flow : FlowH) (aux : TnlAux) (d : Driver) : DelResult :=
  match ingress_flow_find flow aux with
  | some inflow =>
    if inflow.handle = flow.handle then
      let d1 := ingress_flow_op_flush inflow aux d
      { ret := 0
        aux := { aux with ingress_flows :=
                   aux.ingress_flows.eraseP (fun i => i.ufid = flow.ufid) }
        driver := d1
        stores := [(inflow.handle, OFFLOAD_NONE)] }
    else
      { ret := -1, aux := aux, driver := d, stores := [] }
  | none => { ret := -1, aux := aux, driver := d, stores := [] }

/-- `try_del_ingress`: resolve the tunnel vport from the action list
(`hasTnlPop` abstracts `try_ingress`'s `TUNNEL_POP` attribute lookup and
port resolution), then run `del_ingress`. -/
def try_del_ingress (hasTnlPop : Bool) (flow : FlowH) (aux : TnlAux)
    (d : Driver) : DelResult :=
  if !hasTnlPop then { ret := -1, aux := aux, driver := d, stores := [] }
  else del_ingress flow aux d

/-- `try_del_tnlflow`: when the input netdev is a tunnel vport with an
aux (`isTnlflow`), look the flow up in the tnl-pop table; when found and
bound to this flow handle, flush all its composed entries, store status
`NONE`, and remove and free it. -/
def try_del_tnlflow (isTnlflow : Bool) (flow : FlowH) (aux : TnlAux)
    (d : Driver) : DelResult :=
  if !isTnlflow then { ret := -1, aux := aux, driver := d, stores := [] }
  else
    match tnlflow_find flow aux with
    | some tnlflow =>
      if tnlflow.handle = flow.handle then
        let d1 := tnlflow_op_flush tnlflow aux d
        { ret := 0
          aux := { aux with tnl_pop_flows :=
                     aux.tnl_pop_flows.eraseP (fun t => t.ufid = flow.ufid) }
          driver := d1
          stores := [(tnlflow.handle, OFFLOAD_NONE)] }
      else
        { ret := -1, aux := aux, driver := d, stores := [] }
    | none => { ret := -1, aux := aux, driver := d, stores := [] }

/-- The environment a worker item is processed in: everything the C code
obtains from collaborators outside this file.  `netdevOk` is whether
`netdev_ports_get(in_port)` resolves; `offloadable` the action
classifier's verdict; `hasTnlPop` whether the current action list has a
`TUNNEL_POP` resolving to a tunnel netdev; `oldActIngress` the same for
the captured prior actions of a MOD; `isTnlflow` is `try_tnlflow`'s
verdict on the input port; `actionsOffloaded` the driver's
`info->actions_offloaded` answer on the normal path. -/
structure TryOffloadEnv where
  netdevOk : Bool
  offloadable : Bool
  hasTnlPop : Bool
  oldActIngress : Bool
  isTnlflow : Bool
  actionsOffloaded : Bool
  action_flags : Nat
  actLen : Nat

/-- The flow fields the worker reads and writes. -/
structure WFlow where
  handle : Nat
  ufid : Ovs128
  dead : Bool
  status : Nat

/-- Outcome of processing one worker item: the C return value, the
flow's status word after processing, the tables and the driver. -/
structure WorkerResult where
  ret : Int
  status : Nat
  aux : TnlAux
  driver : Driver

/-- `dp_netdev_flow_offload_del`: the DEL path of the worker.  A missing
input netdev stores status `NONE` and fails; otherwise the ingress
cascade, the tnl-pop cascade and finally a plain driver delete (plus a
`NONE` store) are tried in order. -/
def dp_netdev_flow_offload_del (env : TryOffloadEnv) (flow : WFlow)
    (aux : TnlAux) (d : Driver) : WorkerResult :=
  if !env.netdevOk then
    { ret := -1, status := OFFLOAD_NONE, aux := aux, driver := d }
  else
    let ri := try_del_ingress env.hasTnlPop ⟨flow.handle, flow.ufid⟩ aux d
    if ri.ret = 0 then
      { ret := 0, status := OFFLOAD_NONE, aux := ri.aux, driver := ri.driver }
    else
      let rt := try_del_tnlflow env.isTnlflow ⟨flow.handle, flow.ufid⟩
                  ri.aux ri.driver
      if rt.ret = 0 then
        { ret := 0, status := OFFLOAD_NONE, aux := rt.aux, driver := rt.driver }
      else
        let d1 := netdev_flow_del rt.driver flow.ufid
        { ret := 0, status := OFFLOAD_NONE, aux := rt.aux, driver := d1 }

/-- `dp_netdev_try_offload_ingress`: dispatch the ingress paths.  ADD
runs the composition; a MOD whose prior actions resolved a tunnel vport
tears the old ingress composition down and reports `NONE` so the caller
falls through. -/
def dp_netdev_try_offload_ingress (env : TryOffloadEnv) (op : Nat)
    (flow : WFlow) (actLenOf : Nat → Nat) (aux : TnlAux) (d : Driver) :
    EngineResult :=
  if op = DP_NETDEV_FLOW_OFFLOAD_OP_ADD then
    dp_netdev_try_offload_ingress_add env.hasTnlPop ⟨flow.handle, flow.ufid⟩
      env.action_flags actLenOf aux d
  else if op = DP_NETDEV_FLOW_OFFLOAD_OP_MOD then
    if env.oldActIngress then
      let r := del_ingress ⟨flow.handle, flow.ufid⟩ aux d
      { status := OFFLOAD_NONE, aux := r.aux, driver := r.driver
        stores := r.stores }
    else
      { status := OFFLOAD_NONE, aux := aux, driver := d, stores := [] }
  else
    { status := OFFLOAD_NONE, aux := aux, driver := d, stores := [] }

/-- `dp_netdev_normal_offload`: program a single driver entry under the
flow's own ufid with its full action list. -/
def dp_netdev_normal_offload (flow : WFlow) (actLen : Nat) (d : Driver) :
    Driver × Bool :=
  netdev_flow_put d flow.ufid actLen false

/-- `dp_netdev_try_offload`: the ADD/MOD path of the worker.  A dead flow
or an unresolvable input netdev returns `-1` leaving the status word
untouched; a non-offloadable action list stores `FAILED` (converting an
already offloaded MOD into a DEL first); otherwise the ingress path, the
tnl-pop path and the normal path run in order and the resulting status is
stored. -/
def dp_netdev_try_offload (env : TryOffloadEnv) (op : Nat) (flow : WFlow)
    (actLenOf : Nat → Nat) (aux : TnlAux) (d : Driver) : WorkerResult :=
  let old_status := flow.status
  if flow.dead then
    { ret := -1, status := flow.status, aux := aux, driver := d }
  else if !env.netdevOk then
    { ret := -1, status := flow.status, aux := aux, driver := d }
  else if !env.offloadable then
    if op = DP_NETDEV_FLOW_OFFLOAD_OP_ADD
        || !offload_status_offloaded old_status then
      { ret := -1, status := OFFLOAD_FAILED, aux := aux, driver := d }
    else
      let r := dp_netdev_flow_offload_del env flow aux d
      { ret := -1, status := OFFLOAD_FAILED, aux := r.aux, driver := r.driver }
  else
    let ri := dp_netdev_try_offload_ingress env op flow actLenOf aux d
    if ri.status ≠ OFFLOAD_NONE then
      { ret := 0, status := ri.status, aux := ri.aux, driver := ri.driver }
    else
      let rt := dp_netdev_try_offload_tnl_pop env.isTnlflow
                  ⟨flow.handle, flow.ufid⟩ env.action_flags env.actLen
                  ri.aux ri.driver
      if rt.status ≠ OFFLOAD_NONE then
        { ret := 0, status := rt.status, aux := rt.aux, driver := rt.driver }
      else
        let rn := dp_netdev_normal_offload flow env.actLen rt.driver
        if rn.2 then
          { ret := 0
            status := if env.actionsOffloaded then OFFLOAD_FULL
                      else OFFLOAD_MASK
            aux := rt.aux, driver := rn.1 }
        else
          { ret := 0, status := OFFLOAD_FAILED, aux := rt.aux, driver := rn.1 }

/-- One queued request (`struct dp_flow_offload_item`): the flow handle,
the op, and whether prior actions were captured. -/
structure OffloadItem where
  handle : Nat
  op : Nat
  hasOldAct : Bool
deriving DecidableEq

/-- The worker drain on exit (lines 1103-1111 of the C file): every
remaining item's flow gets status `NONE` stored.  The result lists the
status word stored for each drained item. -/
def worker_drain (items : List OffloadItem) : List Nat :=
  items.map (fun _ => OFFLOAD_NONE)

/-- The producer-visible queue state (`struct dp_flow_offload`): the
pause switch `req` and the FIFO of items. -/
structure QueueState where
  req : Bool
  items : List OffloadItem
deriving DecidableEq

/-- The flow fields the producers read and write. -/
structure QFlow where
  handle : Nat
  status : Nat
deriving DecidableEq

/-- `queue_netdev_flow_put`: with the feature switch on and the queue
accepting, and unless the flow is already `IN_PROGRESS` or its reference
cannot be taken (`refOk`), enqueue an item and OR `IN_PROGRESS` into the
flow's status. -/
def queue_netdev_flow_put (enabled : Bool) (q : QueueState) (flow : QFlow)
    (hasOldAct : Bool) (op : Nat) (refOk : Bool) : QueueState × QFlow :=
  if !enabled then (q, flow)
  else if !q.req then (q, flow)
  else if flow_offload_in_progress flow.status then (q, flow)
  else if !refOk then (q, flow)
  else
    ({ q with items := q.items ++ [⟨flow.handle, op, hasOldAct⟩] },
     { flow with status := flow.status ||| OFFLOAD_IN_PROGRESS })

/-- `queue_netdev_flow_del`: unless the flow is already `IN_PROGRESS` or
its reference cannot be taken, enqueue a DEL item (no prior actions) and
OR `IN_PROGRESS` into the flow's status.  There is no feature-switch or
pause check on this path. -/
def queue_netdev_flow_del (q : QueueState) (flow : QFlow) (refOk : Bool) :
    QueueState × QFlow :=
  if flow_offload_in_progress flow.status then (q, flow)
  else if !refOk then (q, flow)
  else
    ({ q with items := q.items ++ [⟨flow.handle,
                                    DP_NETDEV_FLOW_OFFLOAD_OP_DEL, false⟩] },
     { flow with status := flow.status ||| OFFLOAD_IN_PROGRESS })

/-- `ACTION_OUTPUT`: the fate-action bit of the classifier's `flag`. -/
def ACTION_OUTPUT : Nat := 1

/-- One netlink attribute of an odp action list.  `clone` carries its
declared payload length (`nla_len` minus the header) alongside the inner
attribute block, mirroring how the length field lives in the buffer
independently of the payload it describes. -/
inductive OdpAction where
  | output (portno : Nat)
  | clone (payloadLen : Nat) (inner : List OdpAction)
  | tunnel_pop (portno : Nat)
  | push_vlan
  | other (payloadLen : Nat)

/-- `NLA_ALIGN(a->nla_len)`: the aligned on-wire size of an attribute
(4-byte header plus payload; fixed-payload attributes take 8 bytes). -/
def attrSize : OdpAction → Nat
  | .output _ => 8
  | .clone payloadLen _ => 4 + payloadLen
  | .tunnel_pop _ => 8
  | .push_vlan => 8
  | .other payloadLen => 4 + payloadLen

/-- Total on-wire size of an attribute list (`act->size`). -/
def attrListSize (acts : List OdpAction) : Nat :=
  (acts.map attrSize).sum

/-- `is_port_tap`: a port with no netdev behind it is a tap.  The
port-to-netdev map is abstracted by the oracle `tap`. -/
def is_port_tap (tap : Nat → Bool) (portno : Nat) : Bool := tap portno

/-- The loop of `check_clone_actions`, threading the accumulated `flag`
and the `*check_ret` out-parameter; an `OUTPUT` to a tap port returns the
flag accumulated so far (without the `OUTPUT` bit of that attribute). -/
def check_clone_actions_loop (tap : Nat → Bool) (flag : Nat)
    (check_ret : Bool) : List OdpAction → Nat × Bool
  | [] => (flag, check_ret)
  | .output portno :: rest =>
    if is_port_tap tap portno then (flag, check_ret)
    else check_clone_actions_loop tap (flag ||| ACTION_OUTPUT) true rest
  | _ :: rest => check_clone_actions_loop tap flag check_ret rest

/-- `check_clone_actions`: classify a clone's inner attribute block;
returns the accumulated flag and the `*check_ret` offloadability
verdict (initialised to false). -/
def check_clone_actions (tap : Nat → Bool) (acts : List OdpAction) :
    Nat × Bool :=
  check_clone_actions_loop tap 0 false acts

/-- `info` fields written by the action classifier. -/
structure CheckInfo where
  vxlan_decap : Bool
  vlan_push : Bool
  drop : Bool
deriving DecidableEq

/-- Intermediate outcome of the classifier's attribute walk: either an
early `return false` or the final flag/offloadable/info triple. -/
inductive CheckWalk where
  | aborted (info : CheckInfo)
  | done (flag : Nat) (offloadable : Bool) (info : CheckInfo)
deriving DecidableEq

/-- The attribute walk of `offload_check_action`.  `left` at an attribute
equals that attribute's aligned size plus the size of what follows; a
`CLONE` is entered only when `left <= NLA_ALIGN(a->nla_len)`, and
otherwise aborts the walk; an `OUTPUT` to a tap port aborts the walk;
`vxlan` tells which ports are vxlan tunnel netdevs. -/
def offload_check_action_loop (tap vxlan : Nat → Bool) :
    List OdpAction → Nat → Bool → CheckInfo → CheckWalk
  | [], flag, offloadable, info => .done flag offloadable info
  | a :: rest, flag, offloadable, info =>
    match a with
    | .output portno =>
      let flag := flag ||| ACTION_OUTPUT
      if is_port_tap tap portno then .aborted info
      else offload_check_action_loop tap vxlan rest flag true info
    | .clone payloadLen inner =>
      if attrSize (.clone payloadLen inner) + attrListSize rest
          ≤ attrSize (.clone payloadLen inner) then
        let c := check_clone_actions tap inner
        offload_check_action_loop tap vxlan rest (flag ||| c.1) c.2 info
      else
        .aborted info
    | .tunnel_pop portno =>
      let flag := flag ||| ACTION_OUTPUT
      let info := if vxlan portno then { info with vxlan_decap := true }
                  else info
      offload_check_action_loop tap vxlan rest flag true info
    | .push_vlan =>
      offload_check_action_loop tap vxlan rest flag true
        { info with vlan_push := true }
    | .other _ =>
      offload_check_action_loop tap vxlan rest flag offloadable info

/-- `offload_check_action`: classify an action list.  The input netdev
being of type "vxlan" (`inportVxlan`) pre-sets `vxlan_decap`; an empty
action list or one without a fate action is a drop flow and is
offloadable. -/
def offload_check_action (tap vxlan : Nat → Bool) (inportVxlan : Bool)
    (acts : List OdpAction) : Bool × CheckInfo :=
  let info0 : CheckInfo :=
    { vxlan_decap := inportVxlan, vlan_push := false, drop := false }
  match offload_check_action_loop tap vxlan acts 0 false info0 with
  | .aborted info => (false, info)
  | .done flag offloadable info =>
    if attrListSize acts = 0 || flag &&& ACTION_OUTPUT = 0 then
      (true, { info with drop := true })
    else
      (offloadable, info)

/-- Reply of a unixctl command: success or error, each with a body. -/
inductive DumpReply where
  | ok (body : String)
  | err (body : String)
deriving DecidableEq

/-- What `netdev_from_name` plus the vport cast yield for a name:
whether the netdev is of a vport class and, if so, its optional aux. -/
structure NetdevView where
  isVport : Bool
  offload_aux : Option TnlAux

/-- Rendering of a ufid for the dump output (stands in for
`odp_format_ufid`). -/
def ufidStr (u : Ovs128) : String :=
  toString u.hi ++ ":" ++ toString u.lo

/-- The three-section body built by `dp_netdev_dump_vtp_hw_flows` under
the aux read lock: ingress flows with their netdev name, tnl-pop flows
with their refcount, and all composed ufids. -/
def renderVtpDump (netdevName : Nat → String) (aux : TnlAux) : String :=
  "INGRESS flow:\n"
    ++ String.join (aux.ingress_flows.map
        (fun i => ufidStr i.ufid ++ ", netdev:" ++ netdevName i.handle ++ "\n"))
    ++ "TNL_POP flow:\n"
    ++ String.join (aux.tnl_pop_flows.map
        (fun t => ufidStr t.ufid ++ ", ref:" ++ toString t.ref ++ "\n"))
    ++ "MERGED flow:\n"
    ++ String.join (aux.ingress_flows.map (fun i =>
        String.join (aux.tnl_pop_flows.map (fun t =>
          ufidStr (tnl_pop_flow_get_ufid i.ufid t.ufid) ++ "\n"))))

/-- `dp_netdev_dump_vtp_hw_flows`: an unknown name or a non-vport netdev
produces an error reply; a vport without an allocated aux replies
success with an empty body; otherwise the three-section dump is sent. -/
def dp_netdev_dump_vtp_hw_flows (netdevName : Nat → String)
    (lookup : Option NetdevView) : DumpReply :=
  match lookup with
  | none => .err "netdev not found"
  | some nd =>
    if !nd.isVport then .err "netdev not a vport"
    else
      match nd.offload_aux with
      | none => .ok ""
      | some aux => .ok (renderVtpDump netdevName aux)

/-- The number of ingress flows of the aux whose composed entry with the
given tnl-pop flow is currently programmed in the driver. -/
def programmedCount (prog : List Ovs128) (aux : TnlAux) (t : TnlPopFlow) :
    Nat :=
  (aux.ingress_flows.filter
    (fun i => tnl_pop_flow_get_ufid i.ufid t.ufid ∈ prog)).length

/-- Spec §8 invariant: every tnl-pop flow's `ref` equals the number of
ingress flows whose composed entry with it is programmed. -/
def refInvariant (prog : List Ovs128) (aux : TnlAux) : Prop :=
  ∀ t ∈ aux.tnl_pop_flows, t.ref = programmedCount prog aux t

instance (prog : List Ovs128) (aux : TnlAux) :
    Decidable (refInvariant prog aux) := by
  unfold refInvariant; infer_instance

theorem testBit_split (a b k : Nat) (hb : b < 2 ^ 64) :
    Nat.testBit (a * 2 ^ 64 + b) k =
      if k < 64 then Nat.testBit b k else Nat.testBit a (k - 64) := by
  by_cases h : k < 64
  · simp only [h, if_true]
    have hmod : (a * 2 ^ 64 + b) % 2 ^ 64 = b := by
      rw [Nat.add_comm, Nat.mul_comm, Nat.add_mul_mod_self_left,
          Nat.mod_eq_of_lt hb]
    have := Nat.testBit_mod_two_pow (a * 2 ^ 64 + b) 64 k
    rw [hmod] at this
    simp [this, h]
  · simp only [h, if_false]
    have hdiv : (a * 2 ^ 64 + b) / 2 ^ 64 = a := by
      rw [Nat.add_comm, Nat.mul_comm, Nat.add_mul_div_left _ _ (by positivity),
          Nat.div_eq_of_lt hb, Nat.zero_add]
    have hshift : (a * 2 ^ 64 + b) >>> 64 = a := by
      rw [Nat.shiftRight_eq_div_pow, hdiv]
    have := Nat.testBit_shiftRight (i := 64) (j := k - 64) (a * 2 ^ 64 + b)
    rw [hshift, Nat.add_sub_cancel' (Nat.le_of_not_lt h)] at this
    exact this.symm

theorem split_xor (a b c d : Nat) (hb : b < 2 ^ 64) (hd : d < 2 ^ 64) :
    (a * 2 ^ 64 + b) ^^^ (c * 2 ^ 64 + d) =
      (a ^^^ c) * 2 ^ 64 + (b ^^^ d) := by
  apply Nat.eq_of_testBit_eq
  intro k
  have hxd : b ^^^ d < 2 ^ 64 := Nat.xor_lt_two_pow hb hd
  rw [Nat.testBit_xor, testBit_split a b k hb, testBit_split c d k hd,
      testBit_split _ _ k hxd]
  by_cases h : k < 64 <;> simp [h, Nat.testBit_xor]

/-- C5: the composed entry's 128-bit ufid is the bitwise XOR of the
ingress flow's ufid and the tnl-pop flow's ufid (as 128-bit values, for
in-range halves), and the composed-ufid function is commutative in the
two flows. -/
theorem C5_composed_ufid_xor_commutative (iu tu : Ovs128)
    (hil : iu.lo < 2 ^ 64) (htl : tu.lo < 2 ^ 64) :
    tnl_pop_flow_get_ufid iu tu = tnl_pop_flow_get_ufid tu iu ∧
    u128_toNat (tnl_pop_flow_get_ufid iu tu) =
      u128_toNat iu ^^^ u128_toNat tu := by
  constructor
  · unfold tnl_pop_flow_get_ufid
    simp [Nat.xor_comm]
  · simp only [tnl_pop_flow_get_ufid, u128_toNat]
    exact (split_xor iu.hi iu.lo tu.hi tu.lo hil htl).symm

theorem C5_composed_ufid_witness :
    tnl_pop_flow_get_ufid ⟨1, 2⟩ ⟨3, 4⟩ = tnl_pop_flow_get_ufid ⟨3, 4⟩ ⟨1, 2⟩ ∧
    u128_toNat (tnl_pop_flow_get_ufid ⟨1, 2⟩ ⟨3, 4⟩) =
      u128_toNat ⟨1, 2⟩ ^^^ u128_toNat ⟨3, 4⟩ :=
  C5_composed_ufid_xor_commutative ⟨1, 2⟩ ⟨3, 4⟩ (by decide) (by decide)

/-- C6: while the flow's status word has the `IN_PROGRESS` bit,
`queue_netdev_flow_put` is a no-op: no item is allocated or appended and
neither the flow's status nor the queue state changes. -/
theorem C6_queue_put_idempotent (enabled : Bool) (q : QueueState)
    (flow : QFlow) (hasOldAct : Bool) (op : Nat) (refOk : Bool)
    (h : flow_offload_in_progress flow.status = true) :
    queue_netdev_flow_put enabled q flow hasOldAct op refOk = (q, flow) := by
  unfold queue_netdev_flow_put
  by_cases he : enabled <;> by_cases hr : q.req <;> simp [he, hr, h]

theorem C6_queue_put_idempotent_witness :
    flow_offload_in_progress (OFFLOAD_FULL ||| OFFLOAD_IN_PROGRESS) = true ∧
    queue_netdev_flow_put true ⟨true, []⟩
        ⟨7, OFFLOAD_FULL ||| OFFLOAD_IN_PROGRESS⟩ false
        DP_NETDEV_FLOW_OFFLOAD_OP_ADD true =
      (⟨true, []⟩, ⟨7, OFFLOAD_FULL ||| OFFLOAD_IN_PROGRESS⟩) :=
  ⟨by decide,
   C6_queue_put_idempotent true ⟨true, []⟩
     ⟨7, OFFLOAD_FULL ||| OFFLOAD_IN_PROGRESS⟩ false
     DP_NETDEV_FLOW_OFFLOAD_OP_ADD true (by decide)⟩

/-- C3 counterexample: with the queue not accepting (`req = false`, the
pause switch of spec §4.6) and a flow that is not in progress,
`queue_netdev_flow_del` does not return silently: it appends a DEL item
and ORs `IN_PROGRESS` into the flow's status.  (The global feature
switch is not even an input of the del path: the source never reads
it there.) -/
theorem C3_queue_del_ignores_pause_counterexample :
    queue_netdev_flow_del ⟨false, []⟩ ⟨5, OFFLOAD_NONE⟩ true =
      (⟨false, [⟨5, DP_NETDEV_FLOW_OFFLOAD_OP_DEL, false⟩]⟩,
       ⟨5, OFFLOAD_IN_PROGRESS⟩) := by decide

/-- C3 amended: `queue_netdev_flow_del` behaves exactly like
`queue_netdev_flow_put` with `op = DEL` and no prior actions and with
the feature-switch and accepting checks forced to pass — the del path
itself performs neither check, so it enqueues even when the switch is
off or the queue is paused (it still leaves `req` untouched). -/
theorem C3_queue_del_is_put_without_checks (q : QueueState) (flow : QFlow)
    (refOk : Bool) :
    (queue_netdev_flow_del q flow refOk).1.items =
      (queue_netdev_flow_put true ⟨true, q.items⟩ flow false
        DP_NETDEV_FLOW_OFFLOAD_OP_DEL refOk).1.items ∧
    (queue_netdev_flow_del q flow refOk).2 =
      (queue_netdev_flow_put true ⟨true, q.items⟩ flow false
        DP_NETDEV_FLOW_OFFLOAD_OP_DEL refOk).2 ∧
    (queue_netdev_flow_del q flow refOk).1.req = q.req := by
  unfold queue_netdev_flow_del queue_netdev_flow_put
  by_cases h1 : flow_offload_in_progress flow.status <;>
    by_cases h2 : refOk <;> simp [h1, h2]

/-- C1: the refcount invariant fails after a completed operation.  With
a driver that accepts every entry: a tnl-pop ADD, then an ingress ADD
(composing one entry, `ref = 1`, invariant holds), then an ingress DEL.
The DEL deletes the composed entry from the driver and removes the
ingress flow but never decrements the tnl-pop flow's `ref`, leaving
`ref = 1` with zero programmed composed entries. -/
theorem C1_refcount_invariant_violation :
    let d0 : Driver := ⟨fun _ => true, [], []⟩
    let r1 := dp_netdev_try_offload_tnl_pop true ⟨2, ⟨0, 5⟩⟩ 0 0 ⟨[], []⟩ d0
    let r2 := dp_netdev_try_offload_ingress_add true ⟨1, ⟨0, 3⟩⟩ 0
                (fun _ => 0) r1.aux r1.driver
    let r3 := del_ingress ⟨1, ⟨0, 3⟩⟩ r2.aux r2.driver
    r1.status = OFFLOAD_FULL ∧ r2.status = OFFLOAD_FULL ∧ r3.ret = 0 ∧
    refInvariant r2.driver.prog r2.aux ∧
    ¬ refInvariant r3.driver.prog r3.aux := by decide

/-- C2: the rollback walk of `try_offload_tnl_pop` on a concrete failed
ingress ADD.  The aux holds tnl-pop flows `t1`, `t2`; the driver accepts
the composed entry with `t1` and refuses the one with `t2`.  The walk
removes the newly-failed orphan `t2` (storing `FAILED` on its flow,
as the claim says) and deletes `t1`'s composed entry from the driver —
but leaves `t1.ref = 1` instead of decrementing it back to 0. -/
theorem C2_rollback_keeps_ref_of_full_entry :
    let inflow : IngressFlow := ⟨1, ⟨0, 4⟩, 0, OFFLOAD_NONE⟩
    let t1 : TnlPopFlow := ⟨11, ⟨0, 1⟩, 0, 0, OFFLOAD_NONE⟩
    let t2 : TnlPopFlow := ⟨12, ⟨0, 2⟩, 0, 0, OFFLOAD_NONE⟩
    let d : Driver := ⟨fun u => decide (u ≠ ⟨0, 6⟩), [], []⟩
    let r := try_offload_tnl_pop inflow (fun _ => 0) ⟨[], [t1, t2]⟩ d
    r.hint = 0 ∧
    r.stores = [(12, OFFLOAD_FAILED)] ∧
    r.aux.tnl_pop_flows = [{ t1 with status := OFFLOAD_FULL, ref := 1 }] ∧
    r.driver.prog = [] := by decide

/-- C4 counterexample: an ADD item whose flow is dead finishes
processing (`dp_netdev_try_offload` returns) with the producer-set
`IN_PROGRESS` bit still in the status word: the dead-flow early return
never touches the atomic status. -/
theorem C4_dead_flow_keeps_in_progress_counterexample :
    flow_offload_in_progress
      (dp_netdev_try_offload ⟨true, true, false, false, false, false, 0, 0⟩
         DP_NETDEV_FLOW_OFFLOAD_OP_ADD ⟨1, ⟨0, 1⟩, true, OFFLOAD_IN_PROGRESS⟩
         (fun _ => 0) ⟨[], []⟩ ⟨fun _ => true, [], []⟩).status = true := by
  decide

/-- C8 counterexample: the inner block `[OUTPUT(5)]` is well-formed and
offloadable on its own (port 5 is a real netdev), yet a flow whose
`CLONE` of that block is followed by another attribute is rejected as a
whole: the classifier never recurses into a `CLONE` that is not the last
attribute of the list. -/
theorem C8_clone_followed_counterexample :
    (offload_check_action (fun _ => false) (fun _ => false) false
      [.output 5]).1 = true ∧
    (offload_check_action (fun _ => false) (fun _ => false) false
      [.clone 8 [.output 5], .output 5]).1 = false := by decide

/-- C10: `offload/dump-vtp` on an unknown netdev name replies with an
error; on a netdev that is not of a vport class it replies with an
error; on a vport whose offload aux was never allocated it replies
successfully with an empty body. -/
theorem C10_dump_vtp_edges (netdevName : Nat → String) (nd : NetdevView) :
    dp_netdev_dump_vtp_hw_flows netdevName none = .err "netdev not found" ∧
    (nd.isVport = false →
      dp_netdev_dump_vtp_hw_flows netdevName (some nd) =
        .err "netdev not a vport") ∧
    (nd.isVport = true → nd.offload_aux = none →
      dp_netdev_dump_vtp_hw_flows netdevName (some nd) = .ok "") := by
  refine ⟨rfl, fun hv => ?_, fun hv ha => ?_⟩
  · simp [dp_netdev_dump_vtp_hw_flows, hv]
  · simp [dp_netdev_dump_vtp_hw_flows, hv, ha]

theorem C10_dump_vtp_witness :
    dp_netdev_dump_vtp_hw_flows (fun _ => "vxlan_sys_4789")
        (some ⟨false, none⟩) = .err "netdev not a vport" ∧
    dp_netdev_dump_vtp_hw_flows (fun _ => "vxlan_sys_4789")
        (some ⟨true, none⟩) = .ok "" :=
  ⟨(C10_dump_vtp_edges (fun _ => "vxlan_sys_4789") ⟨false, none⟩).2.1 rfl,
   (C10_dump_vtp_edges (fun _ => "vxlan_sys_4789") ⟨true, none⟩).2.2 rfl rfl⟩

theorem in_progress_false_cases (s : Nat)
    (h : s = OFFLOAD_NONE ∨ s = OFFLOAD_FULL ∨ s = OFFLOAD_FAILED) :
    flow_offload_in_progress s = false := by
  rcases h with rfl | rfl | rfl <;> decide

theorem ingress_add_status_cases (h : Bool) (flow : FlowH) (flags : Nat)
    (alo : Nat → Nat) (aux : TnlAux) (d : Driver) :
    (dp_netdev_try_offload_ingress_add h flow flags alo aux d).status =
        OFFLOAD_NONE ∨
      (dp_netdev_try_offload_ingress_add h flow flags alo aux d).status =
        OFFLOAD_FULL ∨
      (dp_netdev_try_offload_ingress_add h flow flags alo aux d).status =
        OFFLOAD_FAILED := by
  unfold dp_netdev_try_offload_ingress_add
  dsimp only
  repeat' split
  all_goals simp

theorem tnl_pop_status_cases (b : Bool) (flow : FlowH) (flags len : Nat)
    (aux : TnlAux) (d : Driver) :
    (dp_netdev_try_offload_tnl_pop b flow flags len aux d).status =
        OFFLOAD_NONE ∨
      (dp_netdev_try_offload_tnl_pop b flow flags len aux d).status =
        OFFLOAD_FULL ∨
      (dp_netdev_try_offload_tnl_pop b flow flags len aux d).status =
        OFFLOAD_FAILED := by
  unfold dp_netdev_try_offload_tnl_pop
  dsimp only
  repeat' split
  all_goals simp

theorem ingress_dispatch_status_cases (env : TryOffloadEnv) (op : Nat)
    (flow : WFlow) (alo : Nat → Nat) (aux : TnlAux) (d : Driver) :
    (dp_netdev_try_offload_ingress env op flow alo aux d).status =
        OFFLOAD_NONE ∨
      (dp_netdev_try_offload_ingress env op flow alo aux d).status =
        OFFLOAD_FULL ∨
      (dp_netdev_try_offload_ingress env op flow alo aux d).status =
        OFFLOAD_FAILED := by
  unfold dp_netdev_try_offload_ingress
  dsimp only
  split
  · exact ingress_add_status_cases _ _ _ _ _ _
  · repeat' split
    all_goals simp

theorem offload_del_status (env : TryOffloadEnv) (flow : WFlow)
    (aux : TnlAux) (d : Driver) :
    (dp_netdev_flow_offload_del env flow aux d).status = OFFLOAD_NONE := by
  unfold dp_netdev_flow_offload_del
  dsimp only
  repeat' split
  all_goals rfl

/-- C4 amended: the `IN_PROGRESS` bit is cleared for every processed
DEL item and every drained item, and for every ADD/MOD item whose flow
is alive and whose input port resolves to a netdev; the amendment is
that an ADD/MOD item whose flow is dead or whose input port does not
resolve returns early without touching the status word, so the bit
survives there (see the counterexample). -/
theorem C4_status_cleared_amended :
    (∀ (env : TryOffloadEnv) (op : Nat) (flow : WFlow) (alo : Nat → Nat)
        (aux : TnlAux) (d : Driver),
      (op = DP_NETDEV_FLOW_OFFLOAD_OP_ADD ∨
        op = DP_NETDEV_FLOW_OFFLOAD_OP_MOD) →
      flow.dead = false → env.netdevOk = true →
      flow_offload_in_progress
        (dp_netdev_try_offload env op flow alo aux d).status = false) ∧
    (∀ (env : TryOffloadEnv) (flow : WFlow) (aux : TnlAux) (d : Driver),
      flow_offload_in_progress
        (dp_netdev_flow_offload_del env flow aux d).status = false) ∧
    (∀ (items : List OffloadItem) (s : Nat),
      s ∈ worker_drain items → flow_offload_in_progress s = false) := by
  refine ⟨?_, ?_, ?_⟩
  · intro env op flow alo aux d hop hdead hnet
    unfold dp_netdev_try_offload
    dsimp only
    simp only [hdead, hnet]
    repeat' split
    all_goals first
      | exact in_progress_false_cases _
          (ingress_dispatch_status_cases env op flow alo aux d)
      | exact in_progress_false_cases _
          (tnl_pop_status_cases env.isTnlflow ⟨flow.handle, flow.ufid⟩
            env.action_flags env.actLen
            (dp_netdev_try_offload_ingress env op flow alo aux d).aux
            (dp_netdev_try_offload_ingress env op flow alo aux d).driver)
      | simp_all [flow_offload_in_progress, OFFLOAD_IN_PROGRESS, OFFLOAD_NONE,
          OFFLOAD_MASK, OFFLOAD_FULL, OFFLOAD_FAILED]
  · intro env flow aux d
    rw [offload_del_status]
    decide
  · intro items s hs
    rcases List.mem_map.mp hs with ⟨i, hi, rfl⟩
    decide

theorem C4_status_cleared_witness :
    flow_offload_in_progress
      (dp_netdev_try_offload ⟨true, true, false, false, false, false, 0, 0⟩
        DP_NETDEV_FLOW_OFFLOAD_OP_ADD ⟨1, ⟨0, 1⟩, false, OFFLOAD_IN_PROGRESS⟩
        (fun _ => 0) ⟨[], []⟩ ⟨fun _ => true, [], []⟩).status = false ∧
    flow_offload_in_progress
      (dp_netdev_flow_offload_del ⟨true, true, false, false, false, false, 0, 0⟩
        ⟨1, ⟨0, 1⟩, false, OFFLOAD_IN_PROGRESS⟩ ⟨[], []⟩
        ⟨fun _ => true, [], []⟩).status = false ∧
    flow_offload_in_progress OFFLOAD_NONE = false :=
  ⟨C4_status_cleared_amended.1 ⟨true, true, false, false, false, false, 0, 0⟩
      DP_NETDEV_FLOW_OFFLOAD_OP_ADD ⟨1, ⟨0, 1⟩, false, OFFLOAD_IN_PROGRESS⟩
      (fun _ => 0) ⟨[], []⟩ ⟨fun _ => true, [], []⟩ (Or.inl rfl) rfl rfl,
   C4_status_cleared_amended.2.1 ⟨true, true, false, false, false, false, 0, 0⟩
      ⟨1, ⟨0, 1⟩, false, OFFLOAD_IN_PROGRESS⟩ ⟨[], []⟩ ⟨fun _ => true, [], []⟩,
   C4_status_cleared_amended.2.2 [⟨1, DP_NETDEV_FLOW_OFFLOAD_OP_ADD, false⟩]
      OFFLOAD_NONE (by simp [worker_drain])⟩

theorem netdev_flow_put_calls (d : Driver) (u : Ovs128) (l : Nat) (m : Bool) :
    (netdev_flow_put d u l m).1.calls = d.calls ++ [DriverCall.put u l m] := by
  unfold netdev_flow_put
  split <;> rfl

theorem try_offload_tnl_pop_loop_calls (inflow : IngressFlow)
    (alo : Nat → Nat) (ts : List TnlPopFlow) :
    ∀ d : Driver, ∃ s,
      (try_offload_tnl_pop_loop inflow alo ts d).2.1.calls = d.calls ++ s := by
  induction ts with
  | nil => intro d; exact ⟨[], by simp [try_offload_tnl_pop_loop]⟩
  | cons t ts ih =>
    intro d
    unfold try_offload_tnl_pop_loop
    dsimp only
    obtain ⟨s, hs⟩ := ih
      (netdev_flow_put d (tnl_pop_flow_get_ufid inflow.ufid t.ufid)
        (alo t.handle) false).1
    split <;>
      exact ⟨[DriverCall.put (tnl_pop_flow_get_ufid inflow.ufid t.ufid)
                (alo t.handle) false] ++ s,
             by rw [hs, netdev_flow_put_calls]; simp⟩

theorem try_offload_tnl_pop_rollback_calls (inflow : IngressFlow)
    (ts : List TnlPopFlow) :
    ∀ d : Driver, ∃ s,
      (try_offload_tnl_pop_rollback inflow ts d).2.1.calls = d.calls ++ s := by
  induction ts with
  | nil => intro d; exact ⟨[], by simp [try_offload_tnl_pop_rollback]⟩
  | cons t ts ih =>
    intro d
    unfold try_offload_tnl_pop_rollback
    dsimp only
    by_cases h1 : t.status = OFFLOAD_FAILED
    · obtain ⟨s, hs⟩ := ih d
      by_cases h2 : t.ref = 0 <;> simp [h1, h2, hs]
    · obtain ⟨s, hs⟩ := ih
        (netdev_flow_del d (tnl_pop_flow_get_ufid inflow.ufid t.ufid))
      refine ⟨[DriverCall.del (tnl_pop_flow_get_ufid inflow.ufid t.ufid)] ++ s,
        ?_⟩
      simp only [h1, if_false, ite_false]
      rw [show (netdev_flow_del d (tnl_pop_flow_get_ufid inflow.ufid t.ufid)) =
            { accept := d.accept
              prog := progDel d.prog (tnl_pop_flow_get_ufid inflow.ufid t.ufid)
              calls := d.calls ++
                [DriverCall.del (tnl_pop_flow_get_ufid inflow.ufid t.ufid)] }
          from rfl] at hs
      simp [hs, netdev_flow_del]

theorem try_offload_tnl_pop_calls (inflow : IngressFlow) (alo : Nat → Nat)
    (aux : TnlAux) (d : Driver) :
    ∃ s, (try_offload_tnl_pop inflow alo aux d).driver.calls = d.calls ++ s := by
  unfold try_offload_tnl_pop
  dsimp only
  obtain ⟨s1, hs1⟩ := try_offload_tnl_pop_loop_calls inflow alo
    (aux.tnl_pop_flows.map (fun t => { t with status := OFFLOAD_NONE })) d
  split
  · obtain ⟨s2, hs2⟩ := try_offload_tnl_pop_rollback_calls inflow
      (try_offload_tnl_pop_loop inflow alo
        (aux.tnl_pop_flows.map (fun t => { t with status := OFFLOAD_NONE })) d).1
      (try_offload_tnl_pop_loop inflow alo
        (aux.tnl_pop_flows.map (fun t => { t with status := OFFLOAD_NONE })) d).2.1
    exact ⟨s1 ++ s2, by rw [hs2, hs1]; simp⟩
  · exact ⟨s1, hs1⟩

/-- C7: the ingress-ADD path.  (a) a ufid already present in the aux
fails without any driver call or table change; (b) a fresh flow whose
match-only validate put (zero actions, `mark_set = 1`) is refused by the
driver fails with exactly that one driver call, leaving the tables and
the programmed set untouched (the new IngressFlow is dropped); (c) when
the driver accepts the validate put it is immediately followed by the
validate delete before any composition work. -/
theorem C7_ingress_add_validate (flow : FlowH) (flags : Nat)
    (alo : Nat → Nat) (aux : TnlAux) (d : Driver) :
    (∀ i, ingress_flow_find flow aux = some i →
      dp_netdev_try_offload_ingress_add true flow flags alo aux d =
        { status := OFFLOAD_FAILED, aux := aux, driver := d, stores := [] }) ∧
    (ingress_flow_find flow aux = none → d.accept flow.ufid = false →
      dp_netdev_try_offload_ingress_add true flow flags alo aux d =
        { status := OFFLOAD_FAILED, aux := aux
          driver := { d with calls :=
                        d.calls ++ [DriverCall.put flow.ufid 0 true] }
          stores := [] }) ∧
    (ingress_flow_find flow aux = none → d.accept flow.ufid = true →
      ∃ rest,
        (dp_netdev_try_offload_ingress_add true flow flags
            alo aux d).driver.calls =
          d.calls ++ [DriverCall.put flow.ufid 0 true,
                      DriverCall.del flow.ufid] ++ rest) := by
  refine ⟨fun i hfind => ?_, fun hfind hacc => ?_, fun hfind hacc => ?_⟩
  · unfold dp_netdev_try_offload_ingress_add
    simp [hfind]
  · unfold dp_netdev_try_offload_ingress_add ingress_flow_validate
      netdev_flow_put ingress_flow_new
    simp [hfind, hacc]
  · have hput2 : (netdev_flow_put d flow.ufid 0 true).2 = true := by
      unfold netdev_flow_put
      simp [hacc]
    have hval : ingress_flow_validate d (ingress_flow_new flow flags) =
        (netdev_flow_del (netdev_flow_put d flow.ufid 0 true).1 flow.ufid,
         true) := by
      unfold ingress_flow_validate
      dsimp only [ingress_flow_new]
      rw [hput2]
      simp
    unfold dp_netdev_try_offload_ingress_add
    simp only [hfind]
    rw [hval]
    simp only [Bool.not_true, Bool.false_eq_true, if_false]
    obtain ⟨s, hs⟩ := try_offload_tnl_pop_calls (ingress_flow_new flow flags)
      alo aux (netdev_flow_del (netdev_flow_put d flow.ufid 0 true).1 flow.ufid)
    split
    · refine ⟨s, ?_⟩
      dsimp only
      rw [hs]
      show (netdev_flow_put d flow.ufid 0 true).1.calls ++ _ ++ s = _
      rw [netdev_flow_put_calls]
      simp
    · refine ⟨s, ?_⟩
      dsimp only
      rw [hs]
      show (netdev_flow_put d flow.ufid 0 true).1.calls ++ _ ++ s = _
      rw [netdev_flow_put_calls]
      simp

theorem C7_ingress_add_validate_witness :
    dp_netdev_try_offload_ingress_add true ⟨9, ⟨0, 3⟩⟩ 0 (fun _ => 0)
        ⟨[⟨1, ⟨0, 3⟩, 0, 0⟩], []⟩ ⟨fun _ => true, [], []⟩ =
      { status := OFFLOAD_FAILED, aux := ⟨[⟨1, ⟨0, 3⟩, 0, 0⟩], []⟩
        driver := ⟨fun _ => true, [], []⟩, stores := [] } ∧
    dp_netdev_try_offload_ingress_add true ⟨9, ⟨0, 7⟩⟩ 0 (fun _ => 0)
        ⟨[], []⟩ ⟨fun _ => false, [], []⟩ =
      { status := OFFLOAD_FAILED, aux := ⟨[], []⟩
        driver := { accept := fun _ => false, prog := []
                    calls := [DriverCall.put ⟨0, 7⟩ 0 true] }
        stores := [] } ∧
    (∃ rest,
      (dp_netdev_try_offload_ingress_add true ⟨9, ⟨0, 7⟩⟩ 0 (fun _ => 0)
          ⟨[], []⟩ ⟨fun _ => true, [], []⟩).driver.calls =
        [DriverCall.put ⟨0, 7⟩ 0 true, DriverCall.del ⟨0, 7⟩] ++ rest) :=
  ⟨by
    have h := (C7_ingress_add_validate ⟨9, ⟨0, 3⟩⟩ 0 (fun _ => 0)
      ⟨[⟨1, ⟨0, 3⟩, 0, 0⟩], []⟩ ⟨fun _ => true, [], []⟩).1
      ⟨1, ⟨0, 3⟩, 0, 0⟩ (by decide)
    exact h,
   by
    have h := (C7_ingress_add_validate ⟨9, ⟨0, 7⟩⟩ 0 (fun _ => 0)
      ⟨[], []⟩ ⟨fun _ => false, [], []⟩).2.1 (by decide) rfl
    exact h,
   by
    have h := (C7_ingress_add_validate ⟨9, ⟨0, 7⟩⟩ 0 (fun _ => 0)
      ⟨[], []⟩ ⟨fun _ => true, [], []⟩).2.2 (by decide) rfl
    simpa using h⟩

theorem flush_fold_calls (iu : Ovs128) (ts : List TnlPopFlow) :
    ∀ d : Driver,
      (ts.foldl (fun d' t =>
          netdev_flow_del d' (tnl_pop_flow_get_ufid iu t.ufid)) d).calls =
        d.calls ++
          ts.map (fun t => DriverCall.del (tnl_pop_flow_get_ufid iu t.ufid)) := by
  induction ts with
  | nil => intro d; simp
  | cons t ts ih =>
    intro d
    simp only [List.foldl_cons, List.map_cons]
    rw [ih]
    simp [netdev_flow_del]

theorem flush_fold_prog (iu : Ovs128) (ts : List TnlPopFlow) :
    ∀ (d : Driver) (u : Ovs128),
      u ∈ (ts.foldl (fun d' t =>
          netdev_flow_del d' (tnl_pop_flow_get_ufid iu t.ufid)) d).prog ↔
        u ∈ d.prog ∧
          u ∉ ts.map (fun t => tnl_pop_flow_get_ufid iu t.ufid) := by
  induction ts with
  | nil => intro d u; simp
  | cons t ts ih =>
    intro d u
    simp only [List.foldl_cons, List.map_cons]
    rw [ih]
    simp [netdev_flow_del, progDel, List.mem_filter, and_assoc]

/-- C9: the ingress DEL cascade.  When the ingress table holds an entry
with the flow's ufid that is bound to this very flow handle,
`del_ingress` succeeds, stores status `NONE` on the flow, removes the
entry from the ingress table (leaving the tnl-pop table alone), issues a
driver delete for the composed entry with every tnl-pop flow (return
values ignored), and leaves none of those composed entries programmed. -/
theorem C9_ingress_del_cascade (flow : FlowH) (aux : TnlAux) (d : Driver)
    (inflow : IngressFlow)
    (hfind : ingress_flow_find flow aux = some inflow)
    (hhandle : inflow.handle = flow.handle) :
    (del_ingress flow aux d).ret = 0 ∧
    (del_ingress flow aux d).stores = [(flow.handle, OFFLOAD_NONE)] ∧
    (del_ingress flow aux d).aux.ingress_flows =
      aux.ingress_flows.eraseP (fun i => i.ufid = flow.ufid) ∧
    (del_ingress flow aux d).aux.tnl_pop_flows = aux.tnl_pop_flows ∧
    (∀ t ∈ aux.tnl_pop_flows,
      tnl_pop_flow_get_ufid inflow.ufid t.ufid ∉
        (del_ingress flow aux d).driver.prog) ∧
    (del_ingress flow aux d).driver.calls = d.calls ++
      aux.tnl_pop_flows.map
        (fun t => DriverCall.del (tnl_pop_flow_get_ufid inflow.ufid t.ufid)) := by
  unfold del_ingress
  simp only [hfind, hhandle, if_pos rfl]
  refine ⟨rfl, rfl, rfl, rfl, fun t ht hmem => ?_, ?_⟩
  · have h2 := (flush_fold_prog inflow.ufid aux.tnl_pop_flows d
      (tnl_pop_flow_get_ufid inflow.ufid t.ufid)).mp
      (by unfold ingress_flow_op_flush at hmem; exact hmem)
    exact h2.2 (List.mem_map_of_mem _ ht)
  · unfold ingress_flow_op_flush
    exact flush_fold_calls inflow.ufid aux.tnl_pop_flows d

theorem C9_ingress_del_cascade_witness :
    (del_ingress ⟨1, ⟨0, 3⟩⟩ ⟨[⟨1, ⟨0, 3⟩, 0, 0⟩], [⟨2, ⟨0, 5⟩, 0, 1, 0⟩]⟩
        ⟨fun _ => true, [⟨0, 6⟩], []⟩).ret = 0 ∧
    (del_ingress ⟨1, ⟨0, 3⟩⟩ ⟨[⟨1, ⟨0, 3⟩, 0, 0⟩], [⟨2, ⟨0, 5⟩, 0, 1, 0⟩]⟩
        ⟨fun _ => true, [⟨0, 6⟩], []⟩).stores = [(1, OFFLOAD_NONE)] ∧
    tnl_pop_flow_get_ufid ⟨0, 3⟩ ⟨0, 5⟩ ∉
      (del_ingress ⟨1, ⟨0, 3⟩⟩ ⟨[⟨1, ⟨0, 3⟩, 0, 0⟩], [⟨2, ⟨0, 5⟩, 0, 1, 0⟩]⟩
        ⟨fun _ => true, [⟨0, 6⟩], []⟩).driver.prog ∧
    (del_ingress ⟨1, ⟨0, 3⟩⟩ ⟨[⟨1, ⟨0, 3⟩, 0, 0⟩], [⟨2, ⟨0, 5⟩, 0, 1, 0⟩]⟩
        ⟨fun _ => true, [⟨0, 6⟩], []⟩).driver.calls =
      [DriverCall.del ⟨0, 6⟩] :=
  ⟨(C9_ingress_del_cascade ⟨1, ⟨0, 3⟩⟩
      ⟨[⟨1, ⟨0, 3⟩, 0, 0⟩], [⟨2, ⟨0, 5⟩, 0, 1, 0⟩]⟩ ⟨fun _ => true, [⟨0, 6⟩], []⟩
      ⟨1, ⟨0, 3⟩, 0, 0⟩ (by decide) rfl).1,
   (C9_ingress_del_cascade ⟨1, ⟨0, 3⟩⟩
      ⟨[⟨1, ⟨0, 3⟩, 0, 0⟩], [⟨2, ⟨0, 5⟩, 0, 1, 0⟩]⟩ ⟨fun _ => true, [⟨0, 6⟩], []⟩
      ⟨1, ⟨0, 3⟩, 0, 0⟩ (by decide) rfl).2.1,
   (C9_ingress_del_cascade ⟨1, ⟨0, 3⟩⟩
      ⟨[⟨1, ⟨0, 3⟩, 0, 0⟩], [⟨2, ⟨0, 5⟩, 0, 1, 0⟩]⟩ ⟨fun _ => true, [⟨0, 6⟩], []⟩
      ⟨1, ⟨0, 3⟩, 0, 0⟩ (by decide) rfl).2.2.2.2.1 ⟨2, ⟨0, 5⟩, 0, 1, 0⟩
      (by decide),
   by
    have h := (C9_ingress_del_cascade ⟨1, ⟨0, 3⟩⟩
      ⟨[⟨1, ⟨0, 3⟩, 0, 0⟩], [⟨2, ⟨0, 5⟩, 0, 1, 0⟩]⟩ ⟨fun _ => true, [⟨0, 6⟩], []⟩
      ⟨1, ⟨0, 3⟩, 0, 0⟩ (by decide) rfl).2.2.2.2.2
    simpa using h⟩

theorem attrSize_pos (a : OdpAction) : 0 < attrSize a := by
  cases a <;> simp [attrSize]

theorem attrListSize_pos (acts : List OdpAction) (h : acts ≠ []) :
    0 < attrListSize acts := by
  cases acts with
  | nil => exact absurd rfl h
  | cons a l =>
    have := attrSize_pos a
    simp only [attrListSize, List.map_cons, List.sum_cons]
    omega

theorem clone_not_last_aborts (tap vxlan : Nat → Bool) (payloadLen : Nat)
    (inner rest : List OdpAction) (flag : Nat) (offloadable : Bool)
    (info : CheckInfo) (h : rest ≠ []) :
    offload_check_action_loop tap vxlan
        (.clone payloadLen inner :: rest) flag offloadable info =
      .aborted info := by
  unfold offload_check_action_loop
  dsimp only
  have hpos := attrListSize_pos rest h
  rw [if_neg (by omega)]

/-- C8 amended: the classifier recurses into a `CLONE`'s inner attribute
block only when the `CLONE` is the last attribute of the list (the
remaining byte count does not exceed the clone's own aligned length), in
which case `check_clone_actions` applies the OUTPUT rule to the inner
block; a `CLONE` followed by any further attribute aborts classification
and the whole flow is not offloadable, regardless of the inner block. -/
theorem C8_clone_last_amended (tap vxlan : Nat → Bool) (inportVxlan : Bool)
    (payloadLen : Nat) (inner : List OdpAction) :
    (∀ (rest : List OdpAction) (flag : Nat) (offloadable : Bool)
        (info : CheckInfo), rest ≠ [] →
      offload_check_action_loop tap vxlan
          (.clone payloadLen inner :: rest) flag offloadable info =
        .aborted info) ∧
    (∀ (a : OdpAction) (rest : List OdpAction),
      offload_check_action tap vxlan inportVxlan
          (.clone payloadLen inner :: a :: rest) =
        (false, ⟨inportVxlan, false, false⟩)) ∧
    (∀ (flag : Nat) (offloadable : Bool) (info : CheckInfo),
      offload_check_action_loop tap vxlan [.clone payloadLen inner]
          flag offloadable info =
        .done (flag ||| (check_clone_actions tap inner).1)
          (check_clone_actions tap inner).2 info) := by
  refine ⟨fun rest flag offloadable info h =>
      clone_not_last_aborts tap vxlan payloadLen inner rest flag offloadable
        info h,
    fun a rest => ?_, fun flag offloadable info => ?_⟩
  · unfold offload_check_action
    dsimp only
    rw [clone_not_last_aborts tap vxlan payloadLen inner (a :: rest) 0 false
      ⟨inportVxlan, false, false⟩ (by simp)]
  · unfold offload_check_action_loop
    dsimp only
    rw [if_pos (by simp [attrListSize])]
    rfl

theorem C8_clone_last_witness :
    offload_check_action_loop (fun _ => false) (fun _ => false)
        [.clone 8 [.output 5], .output 5] 0 false ⟨false, false, false⟩ =
      .aborted ⟨false, false, false⟩ ∧
    offload_check_action (fun _ => false) (fun _ => false) false
        [.clone 8 [.output 5], .output 5] = (false, ⟨false, false, false⟩) ∧
    offload_check_action_loop (fun _ => false) (fun _ => false)
        [.clone 8 [.output 5]] 0 false ⟨false, false, false⟩ =
      .done (0 ||| (check_clone_actions (fun _ => false) [.output 5]).1)
        (check_clone_actions (fun _ => false) [.output 5]).2
        ⟨false, false, false⟩ :=
  ⟨(C8_clone_last_amended (fun _ => false) (fun _ => false) false 8
      [.output 5]).1 [.output 5] 0 false ⟨false, false, false⟩ (by simp),
   (C8_clone_last_amended (fun _ => false) (fun _ => false) false 8
      [.output 5]).2.1 (.output 5) [],
   (C8_clone_last_amended (fun _ => false) (fun _ => false) false 8
      [.output 5]).2.2 0 false ⟨false, false, false⟩⟩
